import Mathlib

/-!
Verification of the lxd2etcd refresh control loop.

The definitions below are a shallow embedding of the Go sources:
  * `internal/lxd2etcd/lxdevents.go`  — the event classifier `HandleLxdEvent`;
  * `internal/lxd2etcd/service.go`    — `NewService`, `initServiceWithRetries`
    and the scheduler loop of `Service.Start`;
  * `internal/lxd2etcd/lxdinfo.go`    — `LxdInfo.Populate` and the JSON layout
    written by `LxdInfo.Persist`.

External collaborators (the LXD client, the etcd client, `json.Unmarshal`)
are modelled by their observable outcomes: a decode attempt is an abstract
`DecodeResult`, the LXD server is a record of query results, and channel
occupancies are natural numbers.  Go nil slices are modelled as empty lists.
-/

namespace Lxd2Etcd

/-! ## Event classifier (lxdevents.go) -/

/-- Decoded lifecycle description (`api.EventLifecycle`); only the `Action`
label is inspected by the classifier. -/
structure EventLifecycle where
  action : String
  deriving Repr, DecidableEq

/-- Outcome of `json.Unmarshal(event.Metadata, lcEvent)`: either a decoded
lifecycle description or a decode failure with a message. -/
inductive DecodeResult where
  | ok (lc : EventLifecycle)
  | fail (msg : String)
  deriving Repr, DecidableEq

/-- Capacity of `service.refreshChan`, from `NewService`:
`make(chan struct{}, 1000)`. -/
def refreshChanCap : Nat := 1000

/-- One send on a buffered channel holding `n` entries with capacity `cap`:
`some (n+1)` if there is room, `none` if the sender blocks (the send never
drops). -/
def chanSend (cap n : Nat) : Option Nat :=
  if n < cap then some (n + 1) else none

/-- Go `strings.HasPrefix`, on the character lists of the strings. -/
def hasPrefix (pre s : String) : Bool :=
  pre.data.isPrefixOf s.data

/-- The action labels that trigger a refresh, from `HandleLxdEvent`:
`strings.HasPrefix(lcEvent.Action, "instance-") ||
 strings.HasPrefix(lcEvent.Action, "network-")`. -/
def refreshWorthy (action : String) : Bool :=
  hasPrefix "instance-" action || hasPrefix "network-" action

/-- Shallow embedding of `HandleLxdEvent` (lxdevents.go).  `decoded` is the
outcome of unmarshalling `event.Metadata`; `n` is the current occupancy of
`refreshChan`.  Returns the decode error, or the channel occupancy after the
handler returns (`none` inside `ok` meaning the send blocked on a full
buffer). -/
def HandleLxdEvent (decoded : DecodeResult) (n : Nat) : Except String (Option Nat) :=
  match decoded with
  | .fail msg => .error ("fail to unmarshal event metadata into EventLifecycle: " ++ msg)
  | .ok lc =>
    if refreshWorthy lc.action then
      .ok (chanSend refreshChanCap n)
    else
      .ok (some n)

/-! ## Connection backoff (initServiceWithRetries, service.go) -/

/-- Wait update after a failed initialization attempt, from
`initServiceWithRetries`: `if wait < 60 { wait = wait + 10 }`. -/
def nextWait (wait : Nat) : Nat :=
  if wait < 60 then wait + 10 else wait

/-- Wait (in seconds) slept before the `n`-th retry within one
`initServiceWithRetries` call: `wait` starts at `0` and is updated by
`nextWait` after each failed attempt. -/
def waitSeq : Nat → Nat
  | 0 => 0
  | n + 1 => nextWait (waitSeq n)

/-! ## Refresh scheduler (Service.Start, service.go)

`Service.Start` is an outer `ServiceLoop` (connection acquisition via
`initServiceWithRetries`, then a blocking startup-trigger send) around an
inner `RefreshLoop` (a `select` over `ctx.Done()`, the periodic ticker,
`refreshChan`, `processingTriggerChan` and `errorChan`).  We model it as a
transition system: one transition per executed `select` arm (or per phase
transition of the outer loop), driven by an input naming the arm and the
outcome of its external calls.  The spec's phases map onto code positions:
`awaitingConnection` = inside `initServiceWithRetries`, `running` = inside
the `RefreshLoop` select, `draining` = after a `break RefreshLoop`, and
`stopped` = after `break ServiceLoop`. -/

/-- Scheduler phase. -/
inductive Phase where
  | awaitingConnection
  | running
  | draining
  | stopped
  deriving Repr, DecidableEq

/-- Scheduler-visible state of `Service.Start`:
`slot` is the occupancy of `processingTriggerChan` (capacity 1), `refreshQ`
the occupancy of `service.refreshChan` (capacity 1000), `dhcpArmed` whether
`waitForDHCPTimer` is armed, and `errVar` the local `err` variable. -/
structure SchedState where
  phase : Phase
  initialized : Bool
  slot : Nat
  refreshQ : Nat
  dhcpArmed : Bool
  errVar : Option String
  deriving Repr, DecidableEq

/-- Outcome of the `Populate`-then-`Persist` pair run by the consume arm. -/
inductive RefreshOutcome where
  | ok
  | populateFail (e : String)
  | persistFail (e : String)
  deriving Repr, DecidableEq

/-- Inputs driving one transition of the loop. -/
inductive SchedInput where
  /-- `initServiceWithRetries` returns (`true`: success, `false`: context
  cancelled), followed by the blocking startup send
  `processingTriggerChan <- struct{}{}`. -/
  | acquire (success : Bool)
  /-- After a `break RefreshLoop`, control loops back to the top of
  `ServiceLoop`. -/
  | drain
  /-- `ctx.Done()` arm: `break ServiceLoop`. -/
  | shutdown
  /-- `ticker.C` arm: non-blocking send into `processingTriggerChan`. -/
  | tick
  /-- `service.refreshChan` arm: one signal received, then `EmptyChanLoop`
  drains further signals (`k` in total, cut short by `emptyChanTimer` when
  `k < refreshQ`), then a non-blocking trigger send and a
  `waitForDHCPTimer.Reset`. -/
  | burst (k : Nat)
  /-- The `waitForDHCPTimer` callback runs: non-blocking trigger send. -/
  | settleFire
  /-- The event handler completes a send into `refreshChan`. -/
  | arrive
  /-- `processingTriggerChan` arm: consume one trigger and, when
  `initialized`, run `Populate` then `Persist` with outcome `r`. -/
  | consume (r : RefreshOutcome)
  /-- `service.errorChan` arm: an asynchronous handler error. -/
  | asyncErr (e : String)
  deriving Repr, DecidableEq

/-- Begin/end events of the `Populate` (capture) and `Persist` (write)
calls, emitted by the consume arm. -/
inductive CycleEvent where
  | popBegin
  | popEnd (ok : Bool)
  | perBegin
  | perEnd (ok : Bool)
  deriving Repr, DecidableEq

/-- Observable output of one transition: `enqueued` counts entries added to
`processingTriggerChan`, `events` the capture/write begin/end events, and
`retv` is `some e` when `Service.Start` returns with value `e`. -/
structure SchedOutput where
  enqueued : Nat
  events : List CycleEvent
  retv : Option (Option String)
  deriving Repr, DecidableEq

/-- Silent output. -/
def noOut : SchedOutput := ⟨0, [], none⟩

/-- Non-blocking send on `processingTriggerChan` (capacity 1), from the
`select { case processingTriggerChan <- struct{}{}: ... default: }`
pattern: returns the new occupancy and the number of entries added. -/
def trySendSlot (slot : Nat) : Nat × Nat :=
  if slot = 0 then (1, 1) else (slot, 0)

/-- One transition of the `Service.Start` loop.  Inputs whose guard does not
hold in the current state (an arm that cannot fire, or a blocking send that
cannot complete) leave the state unchanged. -/
def step (s : SchedState) : SchedInput → SchedState × SchedOutput
  | .acquire success =>
    if s.phase = .awaitingConnection ∧ s.slot = 0 then
      ({ s with initialized := success, slot := 1, phase := .running }, ⟨1, [], none⟩)
    else (s, noOut)
  | .drain =>
    if s.phase = .draining then
      ({ s with phase := .awaitingConnection }, noOut)
    else (s, noOut)
  | .shutdown =>
    if s.phase = .running then
      ({ s with phase := .stopped }, ⟨0, [], some s.errVar⟩)
    else (s, noOut)
  | .tick =>
    if s.phase = .running then
      ({ s with slot := (trySendSlot s.slot).1 }, ⟨(trySendSlot s.slot).2, [], none⟩)
    else (s, noOut)
  | .burst k =>
    if s.phase = .running ∧ 1 ≤ k ∧ k ≤ s.refreshQ then
      ({ s with refreshQ := s.refreshQ - k, slot := (trySendSlot s.slot).1, dhcpArmed := true },
       ⟨(trySendSlot s.slot).2, [], none⟩)
    else (s, noOut)
  | .settleFire =>
    if s.dhcpArmed = true then
      ({ s with slot := (trySendSlot s.slot).1, dhcpArmed := false },
       ⟨(trySendSlot s.slot).2, [], none⟩)
    else (s, noOut)
  | .arrive =>
    if s.refreshQ < refreshChanCap then
      ({ s with refreshQ := s.refreshQ + 1 }, noOut)
    else (s, noOut)
  | .consume r =>
    if s.phase = .running ∧ 1 ≤ s.slot then
      if s.initialized = false then
        ({ s with slot := s.slot - 1 }, noOut)
      else
        match r with
        | .ok =>
          ({ s with slot := s.slot - 1, errVar := none },
           ⟨0, [.popBegin, .popEnd true, .perBegin, .perEnd true], none⟩)
        | .populateFail e =>
          ({ s with slot := s.slot - 1, errVar := some e, phase := .draining },
           ⟨0, [.popBegin, .popEnd false], none⟩)
        | .persistFail e =>
          ({ s with slot := s.slot - 1, errVar := some e, phase := .draining },
           ⟨0, [.popBegin, .popEnd true, .perBegin, .perEnd false], none⟩)
    else (s, noOut)
  | .asyncErr e =>
    if s.phase = .running then
      ({ s with phase := .draining, errVar := some e }, noOut)
    else (s, noOut)

/-- State after a sequence of transitions. -/
def run (s : SchedState) : List SchedInput → SchedState
  | [] => s
  | i :: rest => run (step s i).1 rest

/-- Concatenated capture/write event trace of a sequence of transitions. -/
def traceOf (s : SchedState) : List SchedInput → List CycleEvent
  | [] => []
  | i :: rest => (step s i).2.events ++ traceOf (step s i).1 rest

/-- Value returned by `Service.Start` during a sequence of transitions
(`none` if the loop has not returned). -/
def runReturn (s : SchedState) : List SchedInput → Option (Option String)
  | [] => none
  | i :: rest =>
    match (step s i).2.retv with
    | some v => some v
    | none => runReturn (step s i).1 rest

/-- Weight of a cycle event for the in-flight count: a capture begin opens a
refresh cycle; a failed capture end or any write end closes it. -/
def cycleWeight : CycleEvent → Int
  | .popBegin => 1
  | .popEnd ok => if ok then 0 else -1
  | .perBegin => 0
  | .perEnd _ => -1

/-- Number of refresh cycles in flight after a trace of cycle events. -/
def inFlight (t : List CycleEvent) : Int :=
  (t.map cycleWeight).sum

/-- Running check that, starting from `acc` cycles in flight, every prefix
of the trace keeps the in-flight count between 0 and 1. -/
def flightOkFrom (acc : Int) : List CycleEvent → Bool
  | [] => true
  | e :: t =>
    (decide (0 ≤ acc + cycleWeight e) && decide (acc + cycleWeight e ≤ 1)) &&
      flightOkFrom (acc + cycleWeight e) t

/-- Inputs that record no error into the loop's `err` variable. -/
def errorFree : SchedInput → Bool
  | .asyncErr _ => false
  | .consume (.populateFail _) => false
  | .consume (.persistFail _) => false
  | _ => true

/-- State of a freshly started service: `NewService` plus the top of
`Service.Start`. -/
def initState : SchedState :=
  { phase := .awaitingConnection, initialized := false, slot := 0,
    refreshQ := 0, dhcpArmed := false, errVar := none }

/-- A quiescent running state with five classifier signals queued. -/
def runningQuiet5 : SchedState :=
  { phase := .running, initialized := true, slot := 0,
    refreshQ := 5, dhcpArmed := false, errVar := none }

/-- An initialized running state holding one pending trigger. -/
def runningBusy : SchedState :=
  { phase := .running, initialized := true, slot := 1,
    refreshQ := 0, dhcpArmed := false, errVar := none }

/-! ## Snapshot producer (LxdInfo.Populate, lxdinfo.go)

Go maps are modelled as association lists; a map lookup that misses yields
the zero value `""`.  The LXD server is a record of the query outcomes
`Populate` consumes. -/

/-- Lookup in an association list with a default (Go map indexing). -/
def lookupD (l : List (String × α)) (k : String) (d : α) : α :=
  match l.find? (fun p => p.1 == k) with
  | some p => p.2
  | none => d

/-- Per-container extra configuration (`config.ContainerData`). -/
structure ContainerData where
  nodeIP : String
  defaultInterface : String
  deriving Repr, DecidableEq

/-- `ContainersConfig.Get`: the data for a container, or an empty
`ContainerData` when none is configured. -/
def containersGet (cfg : List (String × ContainerData)) (name : String) : ContainerData :=
  lookupD cfg name { nodeIP := "", defaultInterface := "" }

/-- An LXD network (`api.Network`); only the name is consumed. -/
structure Network where
  name : String
  deriving Repr, DecidableEq

/-- An LXD network state (`api.NetworkState`); only `Hwaddr` is consumed. -/
structure NetworkState where
  hwaddr : String
  deriving Repr, DecidableEq

/-- One live address of a container device
(`api.ContainerStateNetworkAddress`). -/
structure ContainerStateNetworkAddress where
  family : String
  address : String
  netmask : String
  deriving Repr, DecidableEq

/-- Live state of one container device (`api.ContainerStateNetwork`). -/
structure ContainerStateNetwork where
  hostName : String
  hwaddr : String
  addresses : List ContainerStateNetworkAddress
  deriving Repr, DecidableEq

/-- One container as returned by `GetContainersFull`
(`api.ContainerFull`): name, status, expanded device config
(device name → config key → value) and live per-device state. -/
structure ContainerFull where
  name : String
  status : String
  expandedDevices : List (String × List (String × String))
  stateNetwork : List (String × ContainerStateNetwork)
  deriving Repr, DecidableEq

/-- `NetworkInfo` of lxdinfo.go. -/
structure NetworkInfo where
  mac : String
  deriving Repr, DecidableEq

/-- `NetDev` of lxdinfo.go. -/
structure NetDev where
  network : String
  port : String
  mac : String
  ipv4 : List String
  ipv6 : List String
  deriving Repr, DecidableEq

/-- `ContainerInfo` of lxdinfo.go. -/
structure ContainerInfo where
  status : String
  defaultInterface : String
  defaultIPv4 : List String
  defaultIPv6 : List String
  nodeIP : String
  netDevs : List (String × NetDev)
  deriving Repr, DecidableEq

/-- `LxdInfo` of lxdinfo.go. -/
structure LxdInfo where
  networks : List (String × NetworkInfo)
  containers : List (String × ContainerInfo)
  deriving Repr, DecidableEq

/-- Outcomes of the LXD queries `Populate` performs. -/
structure InstanceServer where
  getNetworks : Except String (List Network)
  getNetworkState : String → Except String NetworkState
  getContainersFull : Except String (List ContainerFull)

/-- Address-list accumulation of the inner loop of `Populate`: an address
with family `"inet"` is appended to `ipv4` as `address/netmask`, any other
family to `ipv6`. -/
def addAddress (netdev : NetDev) (a : ContainerStateNetworkAddress) : NetDev :=
  if a.family == "inet" then
    { netdev with ipv4 := netdev.ipv4 ++ [a.address ++ "/" ++ a.netmask] }
  else
    { netdev with ipv6 := netdev.ipv6 ++ [a.address ++ "/" ++ a.netmask] }

/-- Construction of one `NetDev` from the device loop body of `Populate`. -/
def buildNetDev (c : ContainerFull) (netname : String) (net : ContainerStateNetwork) : NetDev :=
  net.addresses.foldl addAddress
    { network := lookupD (lookupD c.expandedDevices netname []) "network" ""
      port := net.hostName
      mac := net.hwaddr
      ipv4 := []
      ipv6 := [] }

/-- Device-loop body of `Populate`: record the device under its name and,
when its name equals the configured default interface, copy its address
lists into `defaultIPv4`/`defaultIPv6`. -/
def containerStep (extra : ContainerData) (c : ContainerFull)
    (info : ContainerInfo) (p : String × ContainerStateNetwork) : ContainerInfo :=
  let netdev := buildNetDev c p.1 p.2
  let info2 := { info with netDevs := info.netDevs ++ [(p.1, netdev)] }
  if p.1 == extra.defaultInterface then
    { info2 with defaultIPv4 := netdev.ipv4, defaultIPv6 := netdev.ipv6 }
  else
    info2

/-- Container-loop body of `Populate`: status from LXD, node IP and default
interface from the configuration, then the device loop.  Go's nil slices
for the default address lists are modelled as `[]`. -/
def processContainer (cfg : List (String × ContainerData)) (c : ContainerFull) : ContainerInfo :=
  let extra := containersGet cfg c.name
  c.stateNetwork.foldl (containerStep extra c)
    { status := c.status, defaultInterface := extra.defaultInterface,
      defaultIPv4 := [], defaultIPv6 := [], nodeIP := extra.nodeIP, netDevs := [] }

/-- Shallow embedding of `LxdInfo.Populate`: enumerate networks and fetch
each network's hardware address, then enumerate containers and build each
`ContainerInfo`; the first failed query aborts the whole call. -/
def Populate (server : InstanceServer) (cfg : List (String × ContainerData)) :
    Except String LxdInfo := do
  let networks ← server.getNetworks
  let networkInfos ← networks.foldlM
    (fun (acc : List (String × NetworkInfo)) (network : Network) => do
      let st ← server.getNetworkState network.name
      pure (acc ++ [(network.name, { mac := st.hwaddr })]))
    []
  let containers ← server.getContainersFull
  let containerInfos := containers.foldl
    (fun acc c => acc ++ [(c.name, processContainer cfg c)]) []
  pure { networks := networkInfos, containers := containerInfos }

/-! ## JSON layout written by LxdInfo.Persist

`Persist` writes `json.Marshal(lxdInfo.Containers)` to
`/lxd/{hostname}/containers`.  The encoding of the concrete types at hand
is reproduced: struct fields in declaration order under their tags, map
keys sorted, strings quoted (escaping is not needed for the scenario
alphabet). -/

/-- JSON string literal (no escaping: fine for the inputs at hand). -/
def jsonQuote (s : String) : String := "\"" ++ s ++ "\""

/-- JSON array of strings. -/
def jsonStringArray (l : List String) : String :=
  "[" ++ String.intercalate "," (l.map jsonQuote) ++ "]"

/-- Ordered insertion of a keyed entry (Go's `json.Marshal` sorts map
keys). -/
def keyInsert (p : String × α) : List (String × α) → List (String × α)
  | [] => [p]
  | q :: t =>
    match compare p.1 q.1 with
    | .gt => q :: keyInsert p t
    | _ => p :: q :: t

/-- Sort an association list by key. -/
def sortByKey (l : List (String × α)) : List (String × α) :=
  l.foldr keyInsert []

/-- JSON object from an association list, keys sorted. -/
def jsonObject (ser : α → String) (m : List (String × α)) : String :=
  "\x7b" ++
    String.intercalate "," ((sortByKey m).map (fun p => jsonQuote p.1 ++ ":" ++ ser p.2)) ++
  "\x7d"

/-- JSON encoding of a `NetDev`, per its Go field tags. -/
def serializeNetDev (d : NetDev) : String :=
  "\x7b" ++ jsonQuote "network" ++ ":" ++ jsonQuote d.network ++
  "," ++ jsonQuote "port" ++ ":" ++ jsonQuote d.port ++
  "," ++ jsonQuote "mac" ++ ":" ++ jsonQuote d.mac ++
  "," ++ jsonQuote "ipv4" ++ ":" ++ jsonStringArray d.ipv4 ++
  "," ++ jsonQuote "ipv6" ++ ":" ++ jsonStringArray d.ipv6 ++ "\x7d"

/-- JSON encoding of a `ContainerInfo`, per its Go field tags. -/
def serializeContainerInfo (c : ContainerInfo) : String :=
  "\x7b" ++ jsonQuote "status" ++ ":" ++ jsonQuote c.status ++
  "," ++ jsonQuote "default_interface" ++ ":" ++ jsonQuote c.defaultInterface ++
  "," ++ jsonQuote "default_ipv4" ++ ":" ++ jsonStringArray c.defaultIPv4 ++
  "," ++ jsonQuote "default_ipv6" ++ ":" ++ jsonStringArray c.defaultIPv6 ++
  "," ++ jsonQuote "node_ip" ++ ":" ++ jsonQuote c.nodeIP ++
  "," ++ jsonQuote "netdevs" ++ ":" ++ jsonObject serializeNetDev c.netDevs ++ "\x7d"

/-- The value `Persist` writes at `/lxd/{hostname}/containers`. -/
def serializeContainers (m : List (String × ContainerInfo)) : String :=
  jsonObject serializeContainerInfo m

/-! ### The end-to-end scenario of spec section 8.7 -/

/-- Scenario container `web1`: status `Running`, one device `eth0` on
network `lxdbr0` with inet address `10.0.0.5/24`. -/
def web1Full : ContainerFull :=
  { name := "web1", status := "Running",
    expandedDevices := [("eth0", [("network", "lxdbr0")])],
    stateNetwork :=
      [("eth0",
        { hostName := "", hwaddr := "",
          addresses := [{ family := "inet", address := "10.0.0.5", netmask := "24" }] })] }

/-- Scenario host: one network `eth0` with hardware address
`aa:bb:cc:dd:ee:ff`, one container `web1`. -/
def scenarioServer : InstanceServer :=
  { getNetworks := .ok [{ name := "eth0" }],
    getNetworkState := fun _ => .ok { hwaddr := "aa:bb:cc:dd:ee:ff" },
    getContainersFull := .ok [web1Full] }

/-- Scenario configuration: `web1` has node IP `10.0.0.5` and default
interface `eth0`. -/
def scenarioCfg : List (String × ContainerData) :=
  [("web1", { nodeIP := "10.0.0.5", defaultInterface := "eth0" })]

/-- The containers value published in the scenario (empty string if
`Populate` failed). -/
def scenarioPublished : String :=
  match Populate scenarioServer scenarioCfg with
  | .ok info => serializeContainers info.containers
  | .error _ => ""

/-! ## Theorems -/

/-- C5: for every raw event, `HandleLxdEvent` returns a decode error exactly
when the embedded payload cannot be unmarshalled into a lifecycle
description; on a successful decode it performs one send on the refresh
channel exactly when the action label has prefix `instance-` or `network-`,
and otherwise changes nothing and returns without error. -/
theorem handleLxdEvent_classifies (d : DecodeResult) (n : Nat) :
    ((∃ emsg, HandleLxdEvent d n = .error emsg) ↔ ∃ msg, d = .fail msg) ∧
    (∀ lc, d = .ok lc →
      (((hasPrefix "instance-" lc.action || hasPrefix "network-" lc.action) = true →
          HandleLxdEvent d n = .ok (chanSend refreshChanCap n)) ∧
       ((hasPrefix "instance-" lc.action || hasPrefix "network-" lc.action) = false →
          HandleLxdEvent d n = .ok (some n)))) := by
  cases d with
  | fail msg =>
    refine ⟨⟨fun _ => ⟨msg, rfl⟩, fun _ => ⟨_, rfl⟩⟩, ?_⟩
    intro lc hlc
    exact absurd hlc (by simp)
  | ok lc =>
    constructor
    · constructor
      · rintro ⟨emsg, he⟩
        simp only [HandleLxdEvent] at he
        split at he <;> simp_all
      · rintro ⟨msg, hmsg⟩
        exact absurd hmsg (by simp)
    · rintro lc' hlc'
      obtain rfl : lc' = lc := by simpa using hlc'.symm
      constructor
      · intro hpre
        simp [HandleLxdEvent, refreshWorthy, hpre]
      · intro hpre
        simp [HandleLxdEvent, refreshWorthy, hpre]

/-- Witness for C5: `instance-started` signals a refresh,
`image-downloaded` is ignored. -/
theorem handleLxdEvent_classifies_witness :
    HandleLxdEvent (.ok { action := "instance-started" }) 0 = .ok (some 1) ∧
    HandleLxdEvent (.ok { action := "image-downloaded" }) 7 = .ok (some 7) := by
  constructor
  · have h := ((handleLxdEvent_classifies (.ok { action := "instance-started" }) 0).2
      { action := "instance-started" } rfl).1 (by decide)
    simpa [chanSend, refreshChanCap] using h
  · exact ((handleLxdEvent_classifies (.ok { action := "image-downloaded" }) 7).2
      { action := "image-downloaded" } rfl).2 (by decide)

/-- C10: a refresh-worthy event makes `HandleLxdEvent` perform exactly one
send on the refresh channel, whose capacity is 1000; the send succeeds
(occupancy grows by exactly one) when there is room and blocks the event
deliverer (rather than dropping) when the buffer is full. -/
theorem classifier_send_blocks (lc : EventLifecycle) (n : Nat)
    (h : (hasPrefix "instance-" lc.action || hasPrefix "network-" lc.action) = true) :
    HandleLxdEvent (.ok lc) n = .ok (chanSend refreshChanCap n) ∧
    refreshChanCap = 1000 ∧
    (n < 1000 → chanSend refreshChanCap n = some (n + 1)) ∧
    (1000 ≤ n → chanSend refreshChanCap n = none) := by
  refine ⟨by simp [HandleLxdEvent, refreshWorthy, h], rfl, ?_, ?_⟩
  · intro hlt
    simp [chanSend, refreshChanCap, hlt]
  · intro hge
    simp [chanSend, refreshChanCap, Nat.not_lt.mpr hge]

/-- Witness for C10: with the buffer full (1000 entries) the send blocks,
with room it adds exactly one entry. -/
theorem classifier_send_blocks_witness :
    HandleLxdEvent (.ok { action := "network-updated" }) 1000 = .ok none ∧
    HandleLxdEvent (.ok { action := "network-updated" }) 3 = .ok (some 4) := by
  constructor
  · have h := classifier_send_blocks { action := "network-updated" } 1000 (by decide)
    rw [h.1, h.2.2.2 (by decide)]
  · have h := classifier_send_blocks { action := "network-updated" } 3 (by decide)
    rw [h.1, h.2.2.1 (by decide)]

/-- C7: within one `initServiceWithRetries` call the waits before successive
retries are `min (10*n) 60`, i.e. 0,10,20,30,40,50,60,60,60,…: the sequence
is non-decreasing, never exceeds 60, and starts again at 0 only with a
fresh call. -/
theorem backoff_monotone_ceiling (n : Nat) :
    waitSeq n = min (10 * n) 60 ∧ waitSeq n ≤ waitSeq (n + 1) ∧
    waitSeq n ≤ 60 ∧ waitSeq 0 = 0 := by
  have closed : ∀ m, waitSeq m = min (10 * m) 60 := by
    intro m
    induction m with
    | zero => simp [waitSeq]
    | succ k ih =>
      simp only [waitSeq, nextWait, ih, Nat.min_def]
      split_ifs <;> omega
  refine ⟨closed n, ?_, ?_, rfl⟩
  · rw [closed n, closed (n + 1), Nat.min_def, Nat.min_def]
    split_ifs <;> omega
  · rw [closed n, Nat.min_def]
    split_ifs <;> omega

/-- Every transition preserves the bound of one pending trigger. -/
lemma step_slot_le_one (s : SchedState) (i : SchedInput) (h : s.slot ≤ 1) :
    (step s i).1.slot ≤ 1 := by
  cases i with
  | acquire success => simp only [step]; split_ifs <;> simp [h]
  | drain => simp only [step]; split_ifs <;> simp [h]
  | shutdown => simp only [step]; split_ifs <;> simp [h]
  | tick => simp only [step, trySendSlot]; split_ifs <;> simp [h]
  | burst k => simp only [step, trySendSlot]; split_ifs <;> simp [h]
  | settleFire => simp only [step, trySendSlot]; split_ifs <;> simp [h]
  | arrive => simp only [step]; split_ifs <;> simp [h]
  | consume r =>
    cases r <;> simp only [step] <;> split_ifs <;> simp [h]
  | asyncErr e => simp only [step]; split_ifs <;> simp [h]

/-- C3: the pending-trigger slot (`processingTriggerChan`, capacity 1) holds
at most one entry after any number of transitions — ticker firings, debounce
firings and settle firings while a refresh is already pending are dropped by
the non-blocking sends rather than queued. -/
theorem processing_slot_at_most_one (s : SchedState) (inputs : List SchedInput)
    (h : s.slot ≤ 1) : (run s inputs).slot ≤ 1 := by
  induction inputs generalizing s with
  | nil => simpa [run] using h
  | cons i rest ih => exact ih _ (step_slot_le_one s i h)

/-- Witness for C3: periodic-timer and debounce firings while a refresh is
pending leave a single pending entry. -/
theorem processing_slot_at_most_one_witness :
    (run initState
      [.acquire true, .tick, .arrive, .arrive, .burst 2, .tick, .settleFire]).slot ≤ 1 :=
  processing_slot_at_most_one initState
    [.acquire true, .tick, .arrive, .arrive, .burst 2, .tick, .settleFire] (by decide)

/-- C4: a trigger consumed while `initialized` is false is logged and
ignored: the transition emits no `Populate`/`Persist` events and only
removes the trigger from the slot. -/
theorem no_refresh_when_uninitialized (s : SchedState) (r : RefreshOutcome)
    (hph : s.phase = .running) (hin : s.initialized = false) (hs : 1 ≤ s.slot) :
    (step s (.consume r)).2.events = [] ∧
    (step s (.consume r)).2.enqueued = 0 ∧
    (step s (.consume r)).1 = { s with slot := s.slot - 1 } := by
  simp [step, hph, hin, hs, noOut]

/-- Witness for C4: consuming the startup trigger of a cancelled
acquisition runs no refresh. -/
theorem no_refresh_when_uninitialized_witness :
    (step (run initState [.acquire false]) (.consume .ok)).2.events = [] ∧
    (step (run initState [.acquire false]) (.consume .ok)).2.enqueued = 0 ∧
    (step (run initState [.acquire false]) (.consume .ok)).1 =
      { run initState [.acquire false] with slot := (run initState [.acquire false]).slot - 1 } :=
  no_refresh_when_uninitialized (run initState [.acquire false]) .ok
    (by decide) (by decide) (by decide)

/-- C1: a burst of `n ≥ 1` classifier signals handled while no refresh is
pending is drained whole and enqueues exactly one refresh trigger,
regardless of `n`; that trigger is consumed as one refresh, and the settle
(wait-for-DHCP) timer armed by the burst enqueues exactly one further
trigger when it fires. -/
theorem debounce_coalescing (s : SchedState) (n : Nat) (r : RefreshOutcome)
    (hn : 1 ≤ n) (hph : s.phase = .running) (hslot : s.slot = 0)
    (hq : s.refreshQ = n) :
    (step s (.burst n)).2.enqueued = 1 ∧
    (step s (.burst n)).1.refreshQ = 0 ∧
    (step s (.burst n)).1.slot = 1 ∧
    (step s (.burst n)).1.dhcpArmed = true ∧
    (step (step s (.burst n)).1 (.consume r)).1.slot = 0 ∧
    (step (step (step s (.burst n)).1 (.consume r)).1 .settleFire).2.enqueued = 1 ∧
    (step (step (step s (.burst n)).1 (.consume r)).1 .settleFire).1.slot = 1 := by
  have hg : s.phase = .running ∧ 1 ≤ n ∧ n ≤ s.refreshQ := ⟨hph, hn, hq ▸ le_rfl⟩
  have h1 : step s (.burst n) =
      ({ s with refreshQ := s.refreshQ - n, slot := 1, dhcpArmed := true },
       ⟨1, [], none⟩) := by
    simp [step, hg, trySendSlot, hslot]
  rw [h1]
  refine ⟨rfl, by simp [hq], rfl, rfl, ?_⟩
  set s1 : SchedState :=
    { s with refreshQ := s.refreshQ - n, slot := 1, dhcpArmed := true } with hs1
  have hcons : (step s1 (.consume r)).1.slot = 0 ∧
      (step s1 (.consume r)).1.dhcpArmed = true := by
    cases hi : s.initialized <;> cases r <;>
      simp [step, hs1, hph, hi]
  obtain ⟨hslot2, harmed2⟩ := hcons
  refine ⟨hslot2, ?_, ?_⟩ <;>
    (revert hslot2 harmed2
     generalize (step s1 (.consume r)).1 = s2
     intro hslot2 harmed2
     simp [step, harmed2, trySendSlot, hslot2])

/-- Witness for C1: a burst of five signals in a quiescent running state. -/
theorem debounce_coalescing_witness :
    (step runningQuiet5 (.burst 5)).2.enqueued = 1 ∧
    (step runningQuiet5 (.burst 5)).1.refreshQ = 0 ∧
    (step runningQuiet5 (.burst 5)).1.slot = 1 ∧
    (step runningQuiet5 (.burst 5)).1.dhcpArmed = true ∧
    (step (step runningQuiet5 (.burst 5)).1 (.consume .ok)).1.slot = 0 ∧
    (step (step (step runningQuiet5 (.burst 5)).1 (.consume .ok)).1 .settleFire).2.enqueued = 1 ∧
    (step (step (step runningQuiet5 (.burst 5)).1 (.consume .ok)).1 .settleFire).1.slot = 1 :=
  debounce_coalescing runningQuiet5 5 .ok (by decide) rfl rfl rfl

/-- C8: a `Persist` (store-write) failure during a refresh moves the loop to
`draining` with the error recorded and the trigger slot empty; the drain
transition re-enters `awaitingConnection`; the next successful acquisition
returns to `running` and enqueues exactly one startup refresh trigger. -/
theorem fatal_error_recovery (s : SchedState) (e : String)
    (hph : s.phase = .running) (hin : s.initialized = true) (hs : s.slot = 1) :
    ((step s (.consume (.persistFail e))).1.phase = .draining ∧
     (step s (.consume (.persistFail e))).1.errVar = some e ∧
     (step s (.consume (.persistFail e))).1.slot = 0) ∧
    (step (step s (.consume (.persistFail e))).1 .drain).1.phase = .awaitingConnection ∧
    ((step (step (step s (.consume (.persistFail e))).1 .drain).1 (.acquire true)).1.phase
        = .running ∧
     (step (step (step s (.consume (.persistFail e))).1 .drain).1 (.acquire true)).1.slot = 1 ∧
     (step (step (step s (.consume (.persistFail e))).1 .drain).1 (.acquire true)).2.enqueued
        = 1 ∧
     (step (step (step s (.consume (.persistFail e))).1 .drain).1
        (.acquire true)).1.initialized = true) := by
  have h1 : step s (.consume (.persistFail e)) =
      ({ s with slot := s.slot - 1, errVar := some e, phase := .draining },
       ⟨0, [.popBegin, .popEnd true, .perBegin, .perEnd false], none⟩) := by
    simp [step, hph, hin, hs]
  rw [h1]
  have h2 : step ({ s with slot := s.slot - 1, errVar := some e, phase := Phase.draining })
      SchedInput.drain =
      ({ s with slot := s.slot - 1, errVar := some e, phase := .awaitingConnection },
       noOut) := by
    simp [step]
  rw [h2]
  refine ⟨⟨rfl, rfl, by simp [hs]⟩, rfl, ?_⟩
  have h3 : step
      ({ s with slot := s.slot - 1, errVar := some e, phase := Phase.awaitingConnection })
      (SchedInput.acquire true) =
      ({ s with slot := 1, errVar := some e, phase := .running, initialized := true },
       ⟨1, [], none⟩) := by
    simp [step, hs]
  rw [h3]
  exact ⟨rfl, rfl, rfl, rfl⟩

/-- Witness for C8: the recovery chain from an initialized running state
consuming its pending trigger. -/
theorem fatal_error_recovery_witness :
    ((step runningBusy (.consume (.persistFail "etcd down"))).1.phase = .draining ∧
     (step runningBusy (.consume (.persistFail "etcd down"))).1.errVar = some "etcd down" ∧
     (step runningBusy (.consume (.persistFail "etcd down"))).1.slot = 0) ∧
    (step (step runningBusy (.consume (.persistFail "etcd down"))).1 .drain).1.phase
      = .awaitingConnection ∧
    ((step (step (step runningBusy (.consume (.persistFail "etcd down"))).1 .drain).1
        (.acquire true)).1.phase = .running ∧
     (step (step (step runningBusy (.consume (.persistFail "etcd down"))).1 .drain).1
        (.acquire true)).1.slot = 1 ∧
     (step (step (step runningBusy (.consume (.persistFail "etcd down"))).1 .drain).1
        (.acquire true)).2.enqueued = 1 ∧
     (step (step (step runningBusy (.consume (.persistFail "etcd down"))).1 .drain).1
        (.acquire true)).1.initialized = true) :=
  fatal_error_recovery runningBusy "etcd down" rfl rfl rfl

lemma inFlight_nil : inFlight [] = 0 := rfl

lemma inFlight_cons (e : CycleEvent) (t : List CycleEvent) :
    inFlight (e :: t) = cycleWeight e + inFlight t := by
  simp [inFlight]

lemma inFlight_append (x y : List CycleEvent) :
    inFlight (x ++ y) = inFlight x + inFlight y := by
  simp [inFlight]

lemma flightOkFrom_append (x y : List CycleEvent) (a : Int) :
    flightOkFrom a (x ++ y) = (flightOkFrom a x && flightOkFrom (a + inFlight x) y) := by
  induction x generalizing a with
  | nil => simp [flightOkFrom, inFlight_nil]
  | cons e t ih =>
    simp [flightOkFrom, ih, inFlight_cons, add_assoc, Bool.and_assoc]

/-- Per-transition emitted event lists: empty, or one of the three complete
cycle blocks. -/
lemma step_events_cases (s : SchedState) (i : SchedInput) :
    (step s i).2.events = [] ∨
    (step s i).2.events = [.popBegin, .popEnd true, .perBegin, .perEnd true] ∨
    (step s i).2.events = [.popBegin, .popEnd false] ∨
    (step s i).2.events = [.popBegin, .popEnd true, .perBegin, .perEnd false] := by
  cases i with
  | consume r => cases r <;> simp only [step, noOut] <;> split_ifs <;> simp
  | acquire success => simp only [step, noOut]; split_ifs <;> simp
  | drain => simp only [step, noOut]; split_ifs <;> simp
  | shutdown => simp only [step, noOut]; split_ifs <;> simp
  | tick => simp only [step, noOut]; split_ifs <;> simp
  | burst k => simp only [step, noOut]; split_ifs <;> simp
  | settleFire => simp only [step, noOut]; split_ifs <;> simp
  | arrive => simp only [step, noOut]; split_ifs <;> simp
  | asyncErr e => simp only [step, noOut]; split_ifs <;> simp

/-- Every run trace passes the in-flight check and ends with no cycle in
flight. -/
lemma flightOk_trace : ∀ (inputs : List SchedInput) (s : SchedState),
    flightOkFrom 0 (traceOf s inputs) = true ∧ inFlight (traceOf s inputs) = 0
  | [], _ => by simp [traceOf, flightOkFrom, inFlight_nil]
  | i :: rest, s => by
    have ih := flightOk_trace rest (step s i).1
    have hb := step_events_cases s i
    simp only [traceOf, flightOkFrom_append, inFlight_append]
    rcases hb with h | h | h | h <;> rw [h] <;>
      simp [flightOkFrom, cycleWeight, inFlight_cons, inFlight_nil, ih.1, ih.2]

/-- Bounds transported from the running check to every prefix. -/
lemma flightOk_prefix (t : List CycleEvent) :
    ∀ (a : Int), flightOkFrom a t = true → 0 ≤ a → a ≤ 1 →
      ∀ p, p <+: t → 0 ≤ a + inFlight p ∧ a + inFlight p ≤ 1 := by
  induction t with
  | nil =>
    intro a _ h0 h1 p hp
    rw [List.prefix_nil.mp hp, inFlight_nil]
    omega
  | cons e t ih =>
    intro a hok h0 h1 p hp
    cases p with
    | nil => rw [inFlight_nil]; omega
    | cons x p2 =>
      obtain ⟨rfl, hp2⟩ := (List.cons_prefix_cons.mp hp)
      simp only [flightOkFrom, Bool.and_eq_true, decide_eq_true_eq] at hok
      have := ih (a + cycleWeight x) hok.2 (by omega) (by omega) p2 hp2
      rw [inFlight_cons]
      omega

/-- C2: single-flight — along every run of the scheduler, every prefix of
the capture/write event trace has at most one refresh cycle in flight
(`Populate` begun but `Persist`, or a failed `Populate`, not yet returned),
and a new capture begins only when the in-flight count is zero: no second
`Populate` call begins before the prior `Persist` call has returned,
whether it succeeded or failed. -/
theorem single_flight (s : SchedState) (inputs : List SchedInput) :
    (∀ p, p <+: traceOf s inputs → 0 ≤ inFlight p ∧ inFlight p ≤ 1) ∧
    (∀ q, q ++ [CycleEvent.popBegin] <+: traceOf s inputs → inFlight q = 0) := by
  have h := flightOk_trace inputs s
  have hp := flightOk_prefix (traceOf s inputs) 0 h.1 le_rfl (by omega)
  constructor
  · intro p hpre
    have := hp p hpre
    omega
  · intro q hq
    have h1 := hp _ hq
    have h2 := hp q ((List.prefix_append q [CycleEvent.popBegin]).trans hq)
    rw [inFlight_append, inFlight_cons, inFlight_nil] at h1
    simp only [cycleWeight] at h1
    omega

/-- Witness for C2: the trace of a successful refresh followed by a failed
one, from a running initialized state with a pending trigger. -/
theorem single_flight_witness :
    (0 ≤ inFlight [CycleEvent.popBegin] ∧ inFlight [CycleEvent.popBegin] ≤ 1) ∧
    inFlight [CycleEvent.popBegin, CycleEvent.popEnd true, CycleEvent.perBegin,
      CycleEvent.perEnd true] = 0 :=
  ⟨(single_flight runningBusy [.consume .ok, .tick, .consume (.persistFail "w")]).1
      [CycleEvent.popBegin] (by decide),
   (single_flight runningBusy [.consume .ok, .tick, .consume (.persistFail "w")]).2
      [CycleEvent.popBegin, CycleEvent.popEnd true, CycleEvent.perBegin,
       CycleEvent.perEnd true] (by decide)⟩

/-- Counterexample to C9 as stated: a run in which an error is encountered
(recorded from the async error channel), then a reconnection and one
successful refresh happen, and shutdown follows — `Service.Start` returns
nil, not the last error encountered, because the consume arm overwrites the
`err` variable with the outcome of the most recent refresh. -/
theorem start_return_counterexample :
    (run { phase := .running, initialized := true, slot := 0, refreshQ := 0,
           dhcpArmed := false, errVar := none }
         [.asyncErr "boom"]).errVar = some "boom" ∧
    runReturn { phase := .running, initialized := true, slot := 0, refreshQ := 0,
                dhcpArmed := false, errVar := none }
        [.asyncErr "boom", .drain, .acquire true, .consume .ok, .shutdown]
      = some none := by
  constructor <;> rfl

/-- Recording-free transitions keep the `err` variable at nil. -/
lemma step_errVar_none (s : SchedState) (i : SchedInput)
    (hf : errorFree i = true) (hn : s.errVar = none) :
    (step s i).1.errVar = none := by
  cases i with
  | consume r =>
    cases r with
    | ok => simp only [step]; split_ifs <;> simp [hn]
    | populateFail e => simp [errorFree] at hf
    | persistFail e => simp [errorFree] at hf
  | asyncErr e => simp [errorFree] at hf
  | acquire success => simp only [step]; split_ifs <;> simp [hn]
  | drain => simp only [step]; split_ifs <;> simp [hn]
  | shutdown => simp only [step]; split_ifs <;> simp [hn]
  | tick => simp only [step]; split_ifs <;> simp [hn]
  | burst k => simp only [step]; split_ifs <;> simp [hn]
  | settleFire => simp only [step]; split_ifs <;> simp [hn]
  | arrive => simp only [step]; split_ifs <;> simp [hn]

/-- An error-free run keeps the `err` variable at nil. -/
lemma run_errVar_none (s : SchedState) (inputs : List SchedInput)
    (hn : s.errVar = none) (hall : ∀ i ∈ inputs, errorFree i = true) :
    (run s inputs).errVar = none := by
  induction inputs generalizing s with
  | nil => simpa [run] using hn
  | cons i rest ih =>
    simp only [run]
    exact ih (step s i).1 (step_errVar_none s i (hall i (by simp)) hn)
      (fun j hj => hall j (by simp [hj]))

/-- C9 (amended): on a shutdown request the loop moves to `stopped` and
`Service.Start` returns the current value of its `err` variable — the
outcome of the most recent fallible operation, which is nil when the
shutdown is clean (no error was ever recorded). -/
theorem start_return_amended (s : SchedState) (inputs : List SchedInput)
    (hph : s.phase = .running) :
    (step s .shutdown).2.retv = some s.errVar ∧
    (step s .shutdown).1.phase = .stopped ∧
    (s.errVar = none → (∀ i ∈ inputs, errorFree i = true) →
      (run s inputs).errVar = none) := by
  exact ⟨by simp [step, hph], by simp [step, hph],
    fun hn hall => run_errVar_none s inputs hn hall⟩

/-- Witness for C9 (amended): clean shutdown of an error-free run returns
nil. -/
theorem start_return_amended_witness :
    (step (run initState [.acquire true, .consume .ok]) .shutdown).2.retv
      = some (run initState [.acquire true, .consume .ok]).errVar ∧
    (step (run initState [.acquire true, .consume .ok]) .shutdown).1.phase = .stopped ∧
    (run (run initState [.acquire true, .consume .ok]) [.tick]).errVar = none := by
  have h := start_return_amended (run initState [.acquire true, .consume .ok]) [.tick]
    (by decide)
  exact ⟨h.1, h.2.1, h.2.2 (by decide) (by decide)⟩

/-- Device-loop fold of `Populate`: with distinct device names, the default
address lists of the result are those of the device matching the configured
default interface, or the accumulator's when no device matches. -/
lemma foldl_containerStep_defaults (extra : ContainerData) (c : ContainerFull)
    (l : List (String × ContainerStateNetwork)) :
    ∀ acc : ContainerInfo, (l.map Prod.fst).Nodup →
      ((l.foldl (containerStep extra c) acc).defaultIPv4 =
        (match l.find? (fun p => p.1 == extra.defaultInterface) with
         | some p => (buildNetDev c p.1 p.2).ipv4
         | none => acc.defaultIPv4)) ∧
      ((l.foldl (containerStep extra c) acc).defaultIPv6 =
        (match l.find? (fun p => p.1 == extra.defaultInterface) with
         | some p => (buildNetDev c p.1 p.2).ipv6
         | none => acc.defaultIPv6)) := by
  induction l with
  | nil => intro acc _; simp
  | cons p t ih =>
    intro acc h
    rw [List.map_cons, List.nodup_cons] at h
    by_cases hb : (p.1 == extra.defaultInterface) = true
    · have hnone : t.find? (fun q => q.1 == extra.defaultInterface) = none := by
        rw [List.find?_eq_none]
        intro q hq hbq
        have hq1 : q.1 = p.1 := (eq_of_beq hbq).trans (eq_of_beq hb).symm
        exact h.1 (hq1 ▸ List.mem_map_of_mem Prod.fst hq)
      have ihh := ih (containerStep extra c acc p) h.2
      have hfind : List.find? (fun q => q.1 == extra.defaultInterface) (p :: t) = some p := by
        simp [List.find?_cons_of_pos, hb]
      rw [List.foldl_cons, hfind]
      constructor
      · rw [ihh.1, hnone]
        simp [containerStep, hb]
      · rw [ihh.2, hnone]
        simp [containerStep, hb]
    · have hbf : (p.1 == extra.defaultInterface) = false := by simpa using hb
      have ihh := ih (containerStep extra c acc p) h.2
      have hfind : List.find? (fun q => q.1 == extra.defaultInterface) (p :: t) =
          List.find? (fun q => q.1 == extra.defaultInterface) t := by
        simp [List.find?_cons_of_neg, hbf]
      rw [List.foldl_cons, hfind]
      constructor
      · rw [ihh.1]
        cases t.find? (fun q => q.1 == extra.defaultInterface) <;>
          simp [containerStep, hbf]
      · rw [ihh.2]
        cases t.find? (fun q => q.1 == extra.defaultInterface) <;>
          simp [containerStep, hbf]

set_option maxRecDepth 10000 in
lemma scenario_default_ipv4_fragment :
    ("\"default_ipv4\":[\"10.0.0.5/24\"]").data <:+: scenarioPublished.data := by
  decide

set_option maxRecDepth 10000 in
lemma scenario_node_ip_fragment :
    ("\"node_ip\":\"10.0.0.5\"").data <:+: scenarioPublished.data := by
  decide

set_option maxRecDepth 10000 in
lemma scenario_status_fragment :
    ("\"status\":\"Running\"").data <:+: scenarioPublished.data := by
  decide

/-- C6: for every container with distinct device names, the default address
lists computed by `Populate` are the ordered address/mask lists of the
device whose name equals the configured default interface, and empty when
no device matches; and in the section 8.7 scenario the published containers
value includes `"default_ipv4":["10.0.0.5/24"]`, `"node_ip":"10.0.0.5"` and
`"status":"Running"`. -/
theorem populate_default_ips (cfg : List (String × ContainerData)) (c : ContainerFull)
    (h : (c.stateNetwork.map Prod.fst).Nodup) :
    ((processContainer cfg c).defaultIPv4 =
        (match c.stateNetwork.find?
            (fun p => p.1 == (containersGet cfg c.name).defaultInterface) with
         | some p => (buildNetDev c p.1 p.2).ipv4
         | none => []) ∧
     (processContainer cfg c).defaultIPv6 =
        (match c.stateNetwork.find?
            (fun p => p.1 == (containersGet cfg c.name).defaultInterface) with
         | some p => (buildNetDev c p.1 p.2).ipv6
         | none => [])) ∧
    (("\"default_ipv4\":[\"10.0.0.5/24\"]").data <:+: scenarioPublished.data ∧
     ("\"node_ip\":\"10.0.0.5\"").data <:+: scenarioPublished.data ∧
     ("\"status\":\"Running\"").data <:+: scenarioPublished.data) := by
  have hfold := foldl_containerStep_defaults (containersGet cfg c.name) c c.stateNetwork
    { status := c.status, defaultInterface := (containersGet cfg c.name).defaultInterface,
      defaultIPv4 := [], defaultIPv6 := [],
      nodeIP := (containersGet cfg c.name).nodeIP, netDevs := [] } h
  refine ⟨⟨?_, ?_⟩, ?_, ?_, ?_⟩
  · exact hfold.1
  · exact hfold.2
  · exact scenario_default_ipv4_fragment
  · exact scenario_node_ip_fragment
  · exact scenario_status_fragment

/-- Witness for C6: the section 8.7 container `web1`. -/
theorem populate_default_ips_witness :
    (processContainer scenarioCfg web1Full).defaultIPv4 = ["10.0.0.5/24"] ∧
    (processContainer scenarioCfg web1Full).defaultIPv6 = [] ∧
    (processContainer scenarioCfg web1Full).nodeIP = "10.0.0.5" ∧
    (processContainer scenarioCfg web1Full).status = "Running" := by
  have h := (populate_default_ips scenarioCfg web1Full (by decide)).1
  exact ⟨by rw [h.1]; rfl, by rw [h.2]; rfl, rfl, rfl⟩

end Lxd2Etcd
